import Mathlib

/-!
Verification of the holstein webapp authentication gateway
(`src/webapp/app.py`): the rate limiter, the session / role-authorization
decision logic of `auth_verify`, the direct password-grant login flow,
token refresh, and JWT group extraction, shallowly embedded in Lean.

Python dicts are modelled as association lists (`lookupA`, `insertA`,
`eraseA`), timestamps (`time.time()`) as integers, the Flask session as a
record whose `user` field being `none` models the absence of the
`"user"` key, and outbound HTTP calls to the identity provider as
explicit outcome values (response / timeout / connection error / other
exception) passed to the embedded route handlers.
-/

namespace Webapp

/-- Lookup in an association list modelling a Python dict
(`d[k]` / `k in d`). -/
def lookupA {α : Type} (k : String) : List (String × α) → Option α
  | [] => none
  | (k', v) :: rest => if k' = k then some v else lookupA k rest

/-- Insert-or-replace in an association list modelling `d[k] = v`. -/
def insertA {α : Type} (k : String) (v : α) : List (String × α) → List (String × α)
  | [] => [(k, v)]
  | (k', v') :: rest => if k' = k then (k, v) :: rest else (k', v') :: insertA k v rest

/-- Key removal in an association list modelling `del d[k]`. -/
def eraseA {α : Type} (k : String) : List (String × α) → List (String × α)
  | [] => []
  | (k', v') :: rest => if k' = k then rest else (k', v') :: eraseA k rest

/-- Python `str.lower()`, modelled as the charwise lowering of the
characters of the string (computable by structural recursion, unlike
`String.toLower`, which recurses on byte positions). -/
def lowercase (s : String) : String := ⟨s.data.map Char.toLower⟩

/-- Python `str.strip()`: drop whitespace from both ends (modelled on
the character list so it computes by structural recursion). -/
def strip (s : String) : String :=
  ⟨((s.data.dropWhile Char.isWhitespace).reverse.dropWhile Char.isWhitespace).reverse⟩

theorem lookupA_insertA_self {α : Type} (k : String) (v : α) (l : List (String × α)) :
    lookupA k (insertA k v l) = some v := by
  induction l with
  | nil => simp [insertA, lookupA]
  | cons hd tl ih =>
    obtain ⟨k', v'⟩ := hd
    by_cases h : k' = k
    · simp [insertA, lookupA, h]
    · simp [insertA, lookupA, h, ih]

/-! ## RateLimiter (`app.py` lines 44-94)

State: `attempts` maps lowercased principal to the list of failure
timestamps, `lockouts` maps lowercased principal to the lockout start
time.  -/

structure RateLimiterState where
  attempts : List (String × List Int)
  lockouts : List (String × Int)
deriving DecidableEq, Repr

/-- The fresh limiter built by `RateLimiter.__init__`. -/
def RateLimiterState.init : RateLimiterState := ⟨[], []⟩

/-- The part of `RateLimiter.is_rate_limited` after the lockout check:
ensure the attempts entry exists, prune attempts outside the window,
and lock the principal out (recording `now`) when the remaining count
reaches `max_attempts`. `u` is already lowercased. -/
def rl_check_attempts (s : RateLimiterState) (u : String) (now : Int)
    (max_attempts : Nat) (window : Int) : Bool × RateLimiterState :=
  let pruned := ((lookupA u s.attempts).getD []).filter (fun t => now - t < window)
  let s' : RateLimiterState := { s with attempts := insertA u pruned s.attempts }
  if max_attempts ≤ pruned.length then
    (true, { s' with lockouts := insertA u now s'.lockouts })
  else
    (false, s')

/-- Embedding of `RateLimiter.is_rate_limited(username, max_attempts,
window, lockout_duration)`: active lockout short-circuits to limited; an expired
lockout is deleted; otherwise the attempt log decides (and may start a
new lockout). Returns the result together with the mutated state. -/
def is_rate_limited (s : RateLimiterState) (username : String) (now : Int)
    (max_attempts : Nat) (window lockout_duration : Int) : Bool × RateLimiterState :=
  let u := lowercase username
  match lookupA u s.lockouts with
  | some lockStart =>
    if now - lockStart < lockout_duration then
      (true, s)
    else
      rl_check_attempts { s with lockouts := eraseA u s.lockouts } u now max_attempts window
  | none => rl_check_attempts s u now max_attempts window

/-- Embedding of `RateLimiter.record_attempt(username)`: append `now` to the
attempt log of the principal, creating the entry if absent. -/
def record_attempt (s : RateLimiterState) (username : String) (now : Int) : RateLimiterState :=
  let u := lowercase username
  { s with attempts := insertA u ((lookupA u s.attempts).getD [] ++ [now]) s.attempts }

/-- Embedding of `RateLimiter.clear_attempts(username)`: drop both the attempt log
and any lockout for the principal. -/
def clear_attempts (s : RateLimiterState) (username : String) : RateLimiterState :=
  let u := lowercase username
  { attempts := eraseA u s.attempts, lockouts := eraseA u s.lockouts }

/-! ## Session model and the `auth_verify` decision (`app.py` lines 372-422) -/

/-- The `session["user"]` dict stored on login: optional string claims
plus the deduplicated group list. -/
structure User where
  id : Option String
  username : Option String
  email : Option String
  name : Option String
  groups : List String
deriving DecidableEq, Repr

/-- The Flask session as used by the app: `user = none` models the
absence of the `"user"` key, `tokenExpires = none` models the absence of
`"token_expires"` (read back with default `0`). -/
structure Session where
  user : Option User
  accessToken : Option String
  refreshToken : Option String
  tokenExpires : Option Int
deriving DecidableEq, Repr

/-- The result of `session.clear()`. -/
def Session.empty : Session := ⟨none, none, none, none⟩

/-- The nginx forwarding headers set on a successful verification. -/
structure Headers where
  forwardedUser : String
  forwardedGroups : String
  userEmail : String
  userName : String
deriving DecidableEq, Repr

/-- Outcome of `auth_verify`: HTTP 200 with forwarding headers, or a
bare 401/403. -/
inductive Decision where
  | allow (h : Headers)
  | deny (code : Nat)
deriving DecidableEq, Repr

/-- True exactly on the `allow` outcome. -/
def Decision.isAllow : Decision → Bool
  | .allow _ => true
  | .deny _ => false

/-- The headers `auth_verify` attaches on success (lines 415-419),
with the dict `.get(key, "")` defaults. -/
def mkHeaders (user : User) : Headers :=
  { forwardedUser := user.username.getD ""
    forwardedGroups := String.intercalate "," user.groups
    userEmail := user.email.getD ""
    userName := user.name.getD "" }

/-- The `/auth/verify` handler (lines 373-422). A value `some ""` models an empty `role` query parameter, which Python treats as
falsy, hence the inner `r = ""` test. Returns the decision and the
resulting session (cleared on expiry). -/
def auth_verify (sess : Session) (required_role : Option String) (now : Int) :
    Decision × Session :=
  match sess.user with
  | none => (.deny 401, sess)
  | some user =>
    let user_groups := user.groups
    let token_expires := (sess.tokenExpires).getD 0
    if 0 < token_expires ∧ token_expires < now then
      (.deny 401, Session.empty)
    else
      let general : Decision × Session :=
        if user_groups = [] ∧ sess.user = none then (.deny 403, sess)
        else (.allow (mkHeaders user), sess)
      match required_role with
      | none => general
      | some r =>
        if r = "" then general
        else if r = "admin" ∧ "admin" ∉ user_groups then (.deny 403, sess)
        else if (r = "view" ∨ r = "modify") ∧ ¬(r ∈ user_groups ∨ "admin" ∈ user_groups) then
          (.deny 403, sess)
        else (.allow (mkHeaders user), sess)

/-! ## JWT group extraction (`app.py` lines 222-244) -/

/-- The `realm_access` claim: an optional `roles` list. -/
structure RealmAccess where
  roles : Option (List String)
deriving DecidableEq, Repr

/-- One entry of the `resource_access` claim: an optional `roles` list. -/
structure ResourceAccessEntry where
  roles : Option (List String)
deriving DecidableEq, Repr

/-- The decoded JWT payload, restricted to the claims
`direct_login` reads: `groups`, `realm_access`, `resource_access`
(a dict from client id to roles). `none` models an absent key. -/
structure DecodedToken where
  groups : Option (List String)
  realm_access : Option RealmAccess
  resource_access : Option (List (String × ResourceAccessEntry))
deriving DecidableEq, Repr

/-- Reading of `decoded["realm_access"].get("roles", [])` when the
`realm_access` key is present, else nothing (lines 228-230). -/
def realm_roles (d : DecodedToken) : List String :=
  match d.realm_access with
  | some ra => ra.roles.getD []
  | none => []

/-- Reading of `decoded["resource_access"][clientId].get("roles", [])`
when both keys are present, else nothing (lines 231-234). -/
def client_roles (d : DecodedToken) (clientId : String) : List String :=
  match d.resource_access with
  | some ra =>
    match lookupA clientId ra with
    | some entry => entry.roles.getD []
    | none => []
  | none => []

/-- The `groups` accumulator of `direct_login` after the three
`extend`s: top-level `groups` claim, then realm roles, then
client-specific resource roles (lines 223-234). -/
def collect_groups (d : DecodedToken) (clientId : String) : List String :=
  d.groups.getD [] ++ realm_roles d ++ client_roles d clientId

/-- The deduplicated group list stored in the session,
`list(set(groups))` (line 244), modelled order-canonically. -/
def session_groups (d : DecodedToken) (clientId : String) : List String :=
  (collect_groups d clientId).dedup

/-! ## Direct login (`app.py` lines 174-293) and token refresh (459-491) -/

/-- The JSON body of a provider token-endpoint response, restricted to
the keys the app reads. `errorDescription` is the `error_description`
detail of the provider on failures. -/
structure TokenBody where
  accessToken : Option String
  refreshToken : Option String
  expiresIn : Option Int
  errorDescription : Option String
deriving DecidableEq, Repr

/-- Outcome of a `requests.post` to the provider token endpoint:
an HTTP response, or one of the exceptions the handlers catch
(`Timeout`, `ConnectionError`, anything else). -/
inductive TokenOutcome where
  | response (status : Nat) (body : TokenBody)
  | timeout
  | connError
  | otherExn
deriving DecidableEq, Repr

/-- The userinfo-endpoint JSON body, restricted to the keys read when
populating `session["user"]`. -/
structure UserInfo where
  sub : Option String
  preferred_username : Option String
  email : Option String
  name : Option String
deriving DecidableEq, Repr

/-- Outcome of the `requests.get` to the userinfo endpoint. -/
inductive UserinfoOutcome where
  | uiResponse (status : Nat) (info : UserInfo)
  | uiTimeout
  | uiConnError
  | uiOtherExn
deriving DecidableEq, Repr

/-- What `direct_login` returns to the browser: the login page
re-rendered with an error message, or a redirect. -/
inductive LoginResult where
  | loginPage (error : String)
  | redirect (url : String)
deriving DecidableEq, Repr

/-- The `/direct-login` handler (lines 174-293). Inputs: the raw form
fields, the client id, the current limiter and session state, the
outcomes of the two provider calls, the JWT decode result (`none`
models a decode exception, caught and logged with `groups` left
empty), the `redirect` query parameter, and the current time. Returns
the rendered result with the new limiter and session state. -/
def direct_login (username_raw password clientId : String)
    (rl : RateLimiterState) (sess : Session)
    (tokenOutcome : TokenOutcome) (userinfoOutcome : UserinfoOutcome)
    (decoded : Option DecodedToken) (redirectParam : Option String) (now : Int) :
    LoginResult × RateLimiterState × Session :=
  let username := strip username_raw
  if username = "" ∨ password = "" then
    (.loginPage "Username and password are required", rl, sess)
  else
    let check := is_rate_limited rl username now 5 300 900
    let rl := check.2
    if check.1 then
      (.loginPage "Too many failed attempts. Account temporarily locked. Please try again later.",
        rl, sess)
    else
      match tokenOutcome with
      | .timeout => (.loginPage "Authentication service timeout. Please try again.", rl, sess)
      | .connError => (.loginPage "Cannot connect to authentication service", rl, sess)
      | .otherExn => (.loginPage "Login failed. Please try again.", rl, sess)
      | .response status body =>
        if status = 200 then
          match body.accessToken with
          | none =>
            (.loginPage "Authentication failed", record_attempt rl username now, sess)
          | some access_token =>
            match userinfoOutcome with
            | .uiResponse uStatus info =>
              if uStatus = 200 then
                let groups :=
                  match decoded with
                  | some d => collect_groups d clientId
                  | none => []
                let newSess : Session :=
                  { user := some
                      { id := info.sub
                        username := info.preferred_username
                        email := info.email
                        name := info.name
                        groups := groups.dedup }
                    accessToken := some access_token
                    refreshToken := body.refreshToken
                    tokenExpires := some (now + body.expiresIn.getD 300) }
                (.redirect (redirectParam.getD "/monitoring"),
                  clear_attempts rl username, newSess)
              else
                (.loginPage "Failed to retrieve user information",
                  record_attempt rl username now, sess)
            | .uiTimeout =>
              (.loginPage "Authentication service timeout. Please try again.", rl, sess)
            | .uiConnError =>
              (.loginPage "Cannot connect to authentication service", rl, sess)
            | .uiOtherExn =>
              (.loginPage "Login failed. Please try again.", rl, sess)
        else
          let rl := record_attempt rl username now
          if status = 401 then
            (.loginPage "Invalid username or password", rl, sess)
          else
            (.loginPage "Authentication failed. Please try again.", rl, sess)

/-- The `/refresh-token` handler (lines 459-491): 401 untouched when no
refresh token is in the session; on a 200 provider response, overwrite
the token material and succeed; on any other response, clear the whole
session and return 401; on any exception (timeout, connection error,
other), return 500 with the session left as it was (the
`except Exception` branch only logs). Returns the HTTP status and the
resulting session. -/
def refresh_token_route (sess : Session) (outcome : TokenOutcome) (now : Int) :
    Nat × Session :=
  match sess.refreshToken with
  | none => (401, sess)
  | some _ =>
    match outcome with
    | .response status body =>
      if status = 200 then
        (200, { sess with
                  accessToken := body.accessToken
                  refreshToken := body.refreshToken
                  tokenExpires := some (now + body.expiresIn.getD 300) })
      else
        (401, Session.empty)
    | .timeout => (500, sess)
    | .connError => (500, sess)
    | .otherExn => (500, sess)

/-! ## Concrete fixtures used by the witness theorems -/

/-- A user whose groups are exactly `["admin"]`. -/
def userAdminW : User :=
  { id := some "sub-1", username := some "alice", email := some "alice@example.com",
    name := some "Alice", groups := ["admin"] }

/-- A session for `userAdminW` that is far from expiry at time 5. -/
def sessAdminW : Session :=
  { user := some userAdminW, accessToken := some "tok", refreshToken := some "rtok",
    tokenExpires := some 1000 }

/-- A session for `userAdminW` already expired at time 11. -/
def sessExpW : Session :=
  { user := some userAdminW, accessToken := some "tok", refreshToken := none,
    tokenExpires := some 10 }

/-! ## Claims about `auth_verify` -/

/-- C5: with no `"user"` key in the session, `auth_verify` answers
DENY 401 for every requested role (absent, recognized or not), leaving
the session untouched. -/
theorem C5_no_session_deny401 (sess : Session) (role : Option String) (now : Int)
    (h : sess.user = none) :
    auth_verify sess role now = (.deny 401, sess) := by
  simp [auth_verify, h]

/-- Witness for C5 at the empty session with role `"admin"`. -/
theorem C5_no_session_deny401_witness :
    auth_verify Session.empty (some "admin") 0 = (.deny 401, Session.empty) :=
  C5_no_session_deny401 Session.empty (some "admin") 0 rfl

/-- C4: a session whose `token_expires` is set (positive) and exceeded
by the current time is answered DENY 401 for any role, and the session
is cleared, so its `user` field reads back as absent. -/
theorem C4_expired_deny401_clears (sess : Session) (u : User) (role : Option String) (now : Int)
    (hu : sess.user = some u)
    (hset : 0 < sess.tokenExpires.getD 0)
    (hexp : sess.tokenExpires.getD 0 < now) :
    auth_verify sess role now = (.deny 401, Session.empty)
    ∧ (auth_verify sess role now).2.user = none := by
  have hmain : auth_verify sess role now = (.deny 401, Session.empty) := by
    simp [auth_verify, hu, hset, hexp]
  exact ⟨hmain, by rw [hmain]; rfl⟩

/-- Witness for C4 at the expired fixture session, time 11, role
`"view"`. -/
theorem C4_expired_deny401_clears_witness :
    auth_verify sessExpW (some "view") 11 = (.deny 401, Session.empty)
    ∧ (auth_verify sessExpW (some "view") 11).2.user = none :=
  C4_expired_deny401_clears sessExpW userAdminW (some "view") 11 rfl (by decide) (by decide)

/-- C1: on a non-expired session with groups `G`, the decision for role
`"admin"` is ALLOW with headers iff `"admin" ∈ G`, else DENY 403; for a
role `r` that is `"view"` or `"modify"`, ALLOW iff `r ∈ G` or
`"admin" ∈ G`, else DENY 403. -/
theorem C1_role_decision (sess : Session) (u : User) (now : Int) (r : String)
    (hu : sess.user = some u)
    (hexp : ¬(0 < sess.tokenExpires.getD 0 ∧ sess.tokenExpires.getD 0 < now))
    (hr : r = "view" ∨ r = "modify") :
    (auth_verify sess (some "admin") now).1
      = (if "admin" ∈ u.groups then .allow (mkHeaders u) else .deny 403)
    ∧ (auth_verify sess (some r) now).1
      = (if r ∈ u.groups ∨ "admin" ∈ u.groups then .allow (mkHeaders u) else .deny 403) := by
  constructor
  · by_cases ha : "admin" ∈ u.groups
    · simp [auth_verify, hu, hexp, ha]
    · simp [auth_verify, hu, hexp, ha]
  · have hne : r ≠ "" := by rcases hr with h | h <;> simp [h]
    have hnadmin : r ≠ "admin" := by rcases hr with h | h <;> simp [h]
    by_cases hmem : r ∈ u.groups ∨ "admin" ∈ u.groups
    · simp [auth_verify, hu, hexp, hne, hnadmin, hr, hmem]
    · simp [auth_verify, hu, hexp, hne, hnadmin, hr, hmem]

/-- Witness for C1 at the admin fixture session, time 5, `r = "view"`. -/
theorem C1_role_decision_witness :
    (auth_verify sessAdminW (some "admin") 5).1
      = (if "admin" ∈ userAdminW.groups then .allow (mkHeaders userAdminW) else .deny 403)
    ∧ (auth_verify sessAdminW (some "view") 5).1
      = (if "view" ∈ userAdminW.groups ∨ "admin" ∈ userAdminW.groups
          then .allow (mkHeaders userAdminW) else .deny 403) :=
  C1_role_decision sessAdminW userAdminW 5 "view" rfl (by decide) (Or.inl rfl)

/-- C9: on a non-expired session, any requested role other than
`"admin"`, `"view"` and `"modify"` (including the empty string) is
allowed with the forwarding headers, whatever groups the session has. -/
theorem C9_unknown_role_allows (sess : Session) (u : User) (r : String) (now : Int)
    (hu : sess.user = some u)
    (hexp : ¬(0 < sess.tokenExpires.getD 0 ∧ sess.tokenExpires.getD 0 < now))
    (hr1 : r ≠ "admin") (hr2 : r ≠ "view") (hr3 : r ≠ "modify") :
    (auth_verify sess (some r) now).1 = .allow (mkHeaders u) := by
  by_cases he : r = ""
  · simp [auth_verify, hu, hexp, he]
  · simp [auth_verify, hu, hexp, he, hr1, hr2, hr3]

/-- Witness for C9 at the admin fixture session with role
`"superuser"`. -/
theorem C9_unknown_role_allows_witness :
    (auth_verify sessAdminW (some "superuser") 5).1 = .allow (mkHeaders userAdminW) :=
  C9_unknown_role_allows sessAdminW userAdminW "superuser" 5 rfl (by decide)
    (by decide) (by decide) (by decide)

/-! ## Claims about the rate limiter -/

/-- An active lockout short-circuits `is_rate_limited` to limited and
leaves the state untouched. -/
theorem is_rate_limited_of_active_lockout (s : RateLimiterState) (p : String)
    (now' t : Int) (m : Nat) (w ld : Int)
    (h : lookupA (lowercase p) s.lockouts = some t) (hlt : now' - t < ld) :
    is_rate_limited s p now' m w ld = (true, s) := by
  simp [is_rate_limited, h, hlt]

/-- C2: once a principal with no active lockout has at least 5 recorded
failures inside the 300s window at the time of a check, that check
reports limited and starts a lockout at `now`; every further check
strictly less than 900s after `now` still reports limited and leaves
the state unchanged. -/
theorem C2_lockout_starts_and_persists (s : RateLimiterState) (p : String) (now now' : Int)
    (hlock : lookupA (lowercase p) s.lockouts = none)
    (hcount : 5 ≤ (((lookupA (lowercase p) s.attempts).getD []).filter
        (fun t => now - t < (300 : Int))).length)
    (hnow' : now' - now < 900) :
    (is_rate_limited s p now 5 300 900).1 = true
    ∧ (is_rate_limited (is_rate_limited s p now 5 300 900).2 p now' 5 300 900).1 = true
    ∧ (is_rate_limited (is_rate_limited s p now 5 300 900).2 p now' 5 300 900).2
        = (is_rate_limited s p now 5 300 900).2 := by
  have hstep : is_rate_limited s p now 5 300 900
      = (true,
          ⟨insertA (lowercase p)
              (((lookupA (lowercase p) s.attempts).getD []).filter
                (fun t => now - t < (300 : Int))) s.attempts,
            insertA (lowercase p) now s.lockouts⟩) := by
    simp [is_rate_limited, rl_check_attempts, hlock, hcount]
  have hlk : lookupA (lowercase p) (is_rate_limited s p now 5 300 900).2.lockouts = some now := by
    rw [hstep]
    exact lookupA_insertA_self _ _ _
  have hpersist := is_rate_limited_of_active_lockout
    (is_rate_limited s p now 5 300 900).2 p now' now 5 300 900 hlk hnow'
  exact ⟨by rw [hstep], by rw [hpersist], by rw [hpersist]⟩

/-- A fresh limiter after five recorded failures for `"carol"` at
times 1..5. -/
def rlFiveFailures : RateLimiterState :=
  record_attempt (record_attempt (record_attempt (record_attempt (record_attempt
    RateLimiterState.init "carol" 1) "carol" 2) "carol" 3) "carol" 4) "carol" 5

/-- Witness for C2: after five failures recorded for `"carol"` within
the window, the check at time 6 locks out and the check at time 800 is
still limited. -/
theorem C2_lockout_starts_and_persists_witness :
    (is_rate_limited rlFiveFailures "carol" 6 5 300 900).1 = true
    ∧ (is_rate_limited
        (is_rate_limited rlFiveFailures "carol" 6 5 300 900).2
        "carol" 800 5 300 900).1 = true
    ∧ (is_rate_limited
        (is_rate_limited rlFiveFailures "carol" 6 5 300 900).2
        "carol" 800 5 300 900).2
        = (is_rate_limited rlFiveFailures "carol" 6 5 300 900).2 :=
  C2_lockout_starts_and_persists rlFiveFailures "carol" 6 800
    (by decide) (by decide) (by decide)

/-- C10: every rate-limiter operation lowercases the principal first,
so two spellings with the same lowercase form act identically on any
state, for any parameters. -/
theorem C10_case_insensitive (s : RateLimiterState) (u v : String) (now : Int)
    (m : Nat) (w ld : Int) (h : lowercase u = lowercase v) :
    is_rate_limited s u now m w ld = is_rate_limited s v now m w ld
    ∧ record_attempt s u now = record_attempt s v now
    ∧ clear_attempts s u = clear_attempts s v := by
  refine ⟨?_, ?_, ?_⟩ <;> simp [is_rate_limited, record_attempt, clear_attempts, h]

/-- Witness for C10 at `"Alice"` versus `"alice"` on the fresh
limiter. -/
theorem C10_case_insensitive_witness :
    is_rate_limited RateLimiterState.init "Alice" 0 5 300 900
      = is_rate_limited RateLimiterState.init "alice" 0 5 300 900
    ∧ record_attempt RateLimiterState.init "Alice" 0
      = record_attempt RateLimiterState.init "alice" 0
    ∧ clear_attempts RateLimiterState.init "Alice"
      = clear_attempts RateLimiterState.init "alice" :=
  C10_case_insensitive RateLimiterState.init "Alice" "alice" 0 5 300 900 (by decide)

/-! ## Claim about group extraction -/

/-- C8: the deduplicated group list stored on login, read as a set,
is the union of the three claim sources (each absent source
contributing nothing); in particular the example token of the claim
yields exactly the set with members "a", "b" and "c". -/
theorem C8_groups_are_union (d : DecodedToken) (c : String) :
    ((session_groups d c).toFinset
      = (d.groups.getD []).toFinset ∪ (realm_roles d).toFinset ∪ (client_roles d c).toFinset)
    ∧ (session_groups
        ⟨some ["a"], some ⟨some ["b"]⟩, some [("client", ⟨some ["a", "c"]⟩)]⟩
        "client").toFinset = {"a", "b", "c"} := by
  constructor
  · ext x
    simp [session_groups, collect_groups, List.mem_dedup, List.mem_append, or_assoc]
  · decide

/-! ## Claims about the direct login flow -/

/-- C7: when the provider token endpoint answers non-200, the rendered
message depends only on the status code, never on the response body
(in particular not on `error_description`): 401 maps to the
invalid-credentials message and anything else to the generic one; a
failed attempt is appended to the attempt log of the principal. -/
theorem C7_provider_detail_hidden (username_raw password clientId : String)
    (rl : RateLimiterState) (sess : Session) (status : Nat) (body1 body2 : TokenBody)
    (uo : UserinfoOutcome) (dec : Option DecodedToken) (red : Option String) (now : Int)
    (hu : strip username_raw ≠ "") (hp : password ≠ "")
    (hlim : (is_rate_limited rl (strip username_raw) now 5 300 900).1 = false)
    (hst : status ≠ 200) :
    (direct_login username_raw password clientId rl sess (.response status body1) uo dec red now).1
      = (direct_login username_raw password clientId rl sess
          (.response status body2) uo dec red now).1
    ∧ (direct_login username_raw password clientId rl sess
          (.response status body1) uo dec red now).1
      = .loginPage (if status = 401 then "Invalid username or password"
          else "Authentication failed. Please try again.")
    ∧ (direct_login username_raw password clientId rl sess
          (.response status body1) uo dec red now).2.1
      = record_attempt (is_rate_limited rl (strip username_raw) now 5 300 900).2
          (strip username_raw) now
    ∧ lookupA (lowercase (strip username_raw))
        (direct_login username_raw password clientId rl sess
          (.response status body1) uo dec red now).2.1.attempts
      = some ((lookupA (lowercase (strip username_raw))
          (is_rate_limited rl (strip username_raw) now 5 300 900).2.attempts).getD [] ++ [now]) := by
  have hmain : ∀ body : TokenBody,
      direct_login username_raw password clientId rl sess (.response status body) uo dec red now
        = (.loginPage (if status = 401 then "Invalid username or password"
              else "Authentication failed. Please try again."),
            record_attempt (is_rate_limited rl (strip username_raw) now 5 300 900).2
              (strip username_raw) now, sess) := by
    intro body
    by_cases h401 : status = 401
    · simp [direct_login, hu, hp, hlim, hst, h401]
    · simp [direct_login, hu, hp, hlim, hst, h401]
  refine ⟨?_, ?_, ?_, ?_⟩
  · rw [hmain body1, hmain body2]
  · rw [hmain body1]
  · rw [hmain body1]
  · rw [hmain body1]
    simp [record_attempt, lookupA_insertA_self]

/-- Witness for C7 at a 401 provider response, two bodies differing in
`error_description`. -/
theorem C7_provider_detail_hidden_witness :
    (direct_login "bob" "pw" "webapp" RateLimiterState.init Session.empty
        (.response 401 ⟨none, none, none, some "account disabled"⟩)
        .uiTimeout none none 0).1
      = (direct_login "bob" "pw" "webapp" RateLimiterState.init Session.empty
          (.response 401 ⟨none, none, none, some "user not found"⟩)
          .uiTimeout none none 0).1
    ∧ (direct_login "bob" "pw" "webapp" RateLimiterState.init Session.empty
          (.response 401 ⟨none, none, none, some "account disabled"⟩)
          .uiTimeout none none 0).1
      = .loginPage (if (401 : Nat) = 401 then "Invalid username or password"
          else "Authentication failed. Please try again.")
    ∧ (direct_login "bob" "pw" "webapp" RateLimiterState.init Session.empty
          (.response 401 ⟨none, none, none, some "account disabled"⟩)
          .uiTimeout none none 0).2.1
      = record_attempt
          (is_rate_limited RateLimiterState.init (strip "bob") 0 5 300 900).2 (strip "bob") 0
    ∧ lookupA (lowercase (strip "bob"))
        (direct_login "bob" "pw" "webapp" RateLimiterState.init Session.empty
          (.response 401 ⟨none, none, none, some "account disabled"⟩)
          .uiTimeout none none 0).2.1.attempts
      = some ((lookupA (lowercase (strip "bob"))
          (is_rate_limited RateLimiterState.init (strip "bob") 0 5 300 900).2.attempts).getD []
          ++ [0]) :=
  C7_provider_detail_hidden "bob" "pw" "webapp" RateLimiterState.init Session.empty 401
    ⟨none, none, none, some "account disabled"⟩ ⟨none, none, none, some "user not found"⟩
    .uiTimeout none none 0 (by decide) (by decide) (by decide) (by decide)

/-- C6 counterexample: a provider timeout does change the stored
rate-limiter state for the principal, because the preceding
`is_rate_limited` check prunes attempts that fell out of the window
(here the stale attempt at time -1000 is dropped). So "the
rate-limiter state for that principal is unchanged by the request" is
false as stated. -/
theorem C6_state_changed_counterexample :
    (direct_login "bob" "pw" "webapp" ⟨[("bob", [-1000])], []⟩ Session.empty
        .timeout .uiTimeout none none 0).2.1
      ≠ ⟨[("bob", [-1000])], []⟩ := by
  decide

/-- C6 (amended): on a provider timeout or connection error during
direct login the user sees the corresponding distinct network-failure
message, no failed attempt is recorded, no lockout is started, and the
resulting limiter state is exactly the one left by the initial
`is_rate_limited` check (which may only prune out-of-window attempts
and expired lockouts). -/
theorem C6_network_failure_not_penalized (username_raw password clientId : String)
    (rl : RateLimiterState) (sess : Session) (uo : UserinfoOutcome)
    (dec : Option DecodedToken) (red : Option String) (now : Int)
    (hu : strip username_raw ≠ "") (hp : password ≠ "")
    (hlim : (is_rate_limited rl (strip username_raw) now 5 300 900).1 = false) :
    direct_login username_raw password clientId rl sess .timeout uo dec red now
      = (.loginPage "Authentication service timeout. Please try again.",
          (is_rate_limited rl (strip username_raw) now 5 300 900).2, sess)
    ∧ direct_login username_raw password clientId rl sess .connError uo dec red now
      = (.loginPage "Cannot connect to authentication service",
          (is_rate_limited rl (strip username_raw) now 5 300 900).2, sess)
    ∧ ("Authentication service timeout. Please try again."
        ≠ "Cannot connect to authentication service"
      ∧ "Authentication service timeout. Please try again." ≠ "Invalid username or password"
      ∧ "Cannot connect to authentication service" ≠ "Invalid username or password") := by
  refine ⟨?_, ?_, by decide, by decide, by decide⟩
  · simp [direct_login, hu, hp, hlim]
  · simp [direct_login, hu, hp, hlim]

/-- Witness for the amended C6 at user `"bob"` on the fresh limiter. -/
theorem C6_network_failure_not_penalized_witness :
    direct_login "bob" "pw" "webapp" RateLimiterState.init Session.empty
        .timeout .uiTimeout none none 0
      = (.loginPage "Authentication service timeout. Please try again.",
          (is_rate_limited RateLimiterState.init (strip "bob") 0 5 300 900).2, Session.empty)
    ∧ direct_login "bob" "pw" "webapp" RateLimiterState.init Session.empty
        .connError .uiTimeout none none 0
      = (.loginPage "Cannot connect to authentication service",
          (is_rate_limited RateLimiterState.init (strip "bob") 0 5 300 900).2, Session.empty)
    ∧ ("Authentication service timeout. Please try again."
        ≠ "Cannot connect to authentication service"
      ∧ "Authentication service timeout. Please try again." ≠ "Invalid username or password"
      ∧ "Cannot connect to authentication service" ≠ "Invalid username or password") :=
  C6_network_failure_not_penalized "bob" "pw" "webapp" RateLimiterState.init Session.empty
    .uiTimeout none none 0 (by decide) (by decide) (by decide)

/-! ## Claims about token refresh -/

/-- C3 counterexample: a timeout during the refresh exchange is caught
by the generic exception handler, which returns 500 and leaves the
session exactly as it was — the logged-in user is still there, so the
session is not cleared on this failure. -/
theorem C3_exception_keeps_session_counterexample :
    (refresh_token_route sessAdminW .timeout 0).2 = sessAdminW
    ∧ sessAdminW.user ≠ none
    ∧ (refresh_token_route sessAdminW .timeout 0).1 = 500 := by
  refine ⟨rfl, by decide, rfl⟩

/-- C3 (amended): with a refresh token in the session, a non-200
provider response clears the entire session and answers 401, while a
timeout, connection error or any other exception answers 500 with the
session left unchanged. -/
theorem C3_refresh_failure_behavior (sess : Session) (rt : String) (now : Int)
    (status : Nat) (body : TokenBody)
    (hrt : sess.refreshToken = some rt) (hst : status ≠ 200) :
    refresh_token_route sess (.response status body) now = (401, Session.empty)
    ∧ refresh_token_route sess .timeout now = (500, sess)
    ∧ refresh_token_route sess .connError now = (500, sess)
    ∧ refresh_token_route sess .otherExn now = (500, sess) := by
  refine ⟨?_, ?_, ?_, ?_⟩ <;> simp [refresh_token_route, hrt, hst]

/-- Witness for the amended C3 at the admin fixture session and a 500
provider response. -/
theorem C3_refresh_failure_behavior_witness :
    refresh_token_route sessAdminW (.response 500 ⟨none, none, none, some "boom"⟩) 0
        = (401, Session.empty)
    ∧ refresh_token_route sessAdminW .timeout 0 = (500, sessAdminW)
    ∧ refresh_token_route sessAdminW .connError 0 = (500, sessAdminW)
    ∧ refresh_token_route sessAdminW .otherExn 0 = (500, sessAdminW) :=
  C3_refresh_failure_behavior sessAdminW "rtok" 0 500 ⟨none, none, none, some "boom"⟩
    rfl (by decide)

end Webapp
